import Mathlib

/-!
Shallow embedding of the audio pipeline of `video_analyzer`:
`src/video_analyzer/clients/whisper_client.py` and
`src/video_analyzer/audio_processor.py`.

External effects (the HTTP probe and transcription request, the ffmpeg
subprocess, the pydub decode) are modelled by explicit outcome parameters;
the Python control flow around them (try/except branching, dict `.get`
defaults, truthiness tests) is translated literally. Python float values
are only ever copied or defaulted by this code (never computed with), so
they are modelled by `Rat`.
-/

namespace VideoAnalyzer

/-- Outcome of the construction-time `requests.get(f"{api_url}/health", timeout=10)`
probe in `WhisperClient.__init__`: either the request raises (unreachable), or it
yields a response with a status code and a body that `.json()` either parses or
rejects. -/
inductive ProbeOutcome where
  | unreachable
  | response (status : Nat) (bodyIsValidJson : Bool)
deriving DecidableEq

/-- Result of running `WhisperClient.__init__`: a constructed client (recording
whether the non-200 warning branch was taken) or the raised `ConnectionError`. -/
inductive InitResult where
  | ok (warnedNon200 : Bool)
  | connectionError
deriving DecidableEq

/-- `WhisperClient.__init__` health check: inside the `try`, a 200 response has
its body parsed as JSON (a parse failure raises into the `except`); any other
status only logs a warning; any exception in the `try` is converted to
`ConnectionError`. -/
def whisperClientInit (probe : ProbeOutcome) : InitResult :=
  match probe with
  | .unreachable => .connectionError
  | .response status valid =>
    if status = 200 then
      if valid then .ok false else .connectionError
    else
      .ok true

/-- Outcome of `subprocess.run(["ffmpeg", ...], check=True, capture_output=True)`:
exit 0, a nonzero exit (raising `CalledProcessError` carrying stderr), or the
binary being absent (raising `FileNotFoundError`). -/
inductive FfmpegOutcome where
  | success
  | calledProcessError (stderr : String)
  | fileNotFound
deriving DecidableEq

/-- Outcome of the pydub fallback (`AudioSegment.from_file` / `set_channels(1)` /
`set_frame_rate(16000)` / `export`): success or any exception. -/
inductive PydubOutcome where
  | success
  | failure
deriving DecidableEq

/-- Result of `AudioProcessor.extract_audio`: the fixed `audio.wav` path, `None`
for a container with no audio stream, the remediation `RuntimeError` when both
decode paths fail, or an uncaught `FileNotFoundError` escaping `subprocess.run`. -/
inductive ExtractResult where
  | audioPath
  | noAudio
  | raiseRuntimeError
  | raiseFileNotFound
deriving DecidableEq

/-- `pat` occurs at the head of the character list. -/
def charsStartWith : List Char → List Char → Bool
  | [], _ => true
  | _ :: _, [] => false
  | p :: ps, c :: cs => p == c && charsStartWith ps cs

/-- `pat` occurs contiguously somewhere in the character list. -/
def charsContain (pat : List Char) : List Char → Bool
  | [] => pat.isEmpty
  | c :: cs => charsStartWith pat (c :: cs) || charsContain pat cs

/-- Python `pat in s` for strings: contiguous substring occurrence. -/
def strContains (s pat : String) : Bool := charsContain pat.data s.data

/-- The stderr fragment `extract_audio` matches to recognise a source with no
audio stream. -/
def noStreamMsg : String := "Output file does not contain any stream"

/-- `AudioProcessor.extract_audio`: run ffmpeg; on `CalledProcessError` inspect
stderr — the no-stream diagnostic returns `None`, otherwise fall back to pydub
and raise the remediation `RuntimeError` if that also fails. `FileNotFoundError`
from `subprocess.run` is not caught by the `except subprocess.CalledProcessError`
clause and escapes. -/
def extract_audio (ffmpeg : FfmpegOutcome) (pydub : PydubOutcome) : ExtractResult :=
  match ffmpeg with
  | .success => .audioPath
  | .fileNotFound => .raiseFileNotFound
  | .calledProcessError stderr =>
    if strContains stderr noStreamMsg then .noAudio
    else
      match pydub with
      | .success => .audioPath
      | .failure => .raiseRuntimeError

/-- A word object of the raw service JSON; each key may be absent. -/
structure RawWord where
  word : Option String
  start : Option Rat
  «end» : Option Rat
  probability : Option Rat
deriving DecidableEq

/-- A segment object of the raw service JSON; each key may be absent. -/
structure RawSegment where
  text : Option String
  start : Option Rat
  «end» : Option Rat
  words : Option (List RawWord)
deriving DecidableEq

/-- The raw service JSON dict: the three keys the code reads, each possibly
absent, plus whether the dict carries any further keys (this only feeds the
Python truthiness test `if not result`). -/
structure RawResult where
  text : Option String
  segments : Option (List RawSegment)
  language : Option String
  hasOtherKeys : Bool
deriving DecidableEq

/-- Normalized word entry built by `AudioProcessor.transcribe`. -/
structure Word where
  word : String
  start : Rat
  «end» : Rat
  probability : Rat
deriving DecidableEq

/-- Normalized segment entry built by `AudioProcessor.transcribe`. -/
structure Segment where
  text : String
  start : Rat
  «end» : Rat
  words : List Word
deriving DecidableEq

/-- The `AudioTranscript` dataclass. -/
structure AudioTranscript where
  text : String
  segments : List Segment
  language : String
deriving DecidableEq

/-- Outcome of one `WhisperClient.transcribe` call against the environment:
the file-open/upload sequence raises a timeout, a `RequestException` (transport
failure or `raise_for_status`), a JSON decode error from `response.json()`, some
other unexpected exception, or succeeds with a parsed dict. -/
inductive ClientCallOutcome where
  | timeout
  | requestException
  | jsonDecodeError
  | otherError
  | okJson (result : RawResult)
deriving DecidableEq

/-- The Python exception classes distinguished by the handlers in this code. -/
inductive PyExn where
  | timeout
  | requestException
  | valueError
  | otherException
deriving DecidableEq

/-- The body of `WhisperClient.transcribe` before its `except` clauses: raises
or returns the parsed JSON dict. -/
def clientRequestBody (o : ClientCallOutcome) : Except PyExn RawResult :=
  match o with
  | .timeout => .error .timeout
  | .requestException => .error .requestException
  | .jsonDecodeError => .error .valueError
  | .otherError => .error .otherException
  | .okJson r => .ok r

/-- `WhisperClient.transcribe`: the three `except` clauses (`Timeout`,
`RequestException`, `Exception`) each log and return `None`; success returns
the dict. -/
def whisperClientTranscribe (o : ClientCallOutcome) : Except PyExn (Option RawResult) :=
  match clientRequestBody o with
  | .ok r => .ok (some r)
  | .error .timeout => .ok none
  | .error .requestException => .ok none
  | .error _ => .ok none

/-- Python `not text or not text.strip()`: true exactly when every character of
the string is whitespace (vacuously for the empty string). -/
def pyBlank (s : String) : Bool := s.data.all Char.isWhitespace

/-- Python truthiness of the result dict: `not result` is true for an empty
dict — none of the modelled keys present and no other key either. -/
def rawIsEmptyDict (r : RawResult) : Bool :=
  r.text.isNone && r.segments.isNone && r.language.isNone && !r.hasOtherKeys

/-- Python `not result` on the `Optional[Dict]` returned by the client. -/
def pyFalsyResult (r : Option RawResult) : Bool :=
  match r with
  | none => true
  | some d => rawIsEmptyDict d

/-- The word-copying loop body: `word.get("word", "")`, `word.get("start", 0.0)`,
`word.get("end", 0.0)`, `word.get("probability", 1.0)`. -/
def normWord (w : RawWord) : Word :=
  { word := w.word.getD "", start := w.start.getD 0,
    «end» := w.«end».getD 0, probability := w.probability.getD 1 }

/-- The segment-copying loop body: `segment.get("text", "")` etc., with the word
loop run only when `"words" in segment and segment["words"]` (an absent or empty
word list leaves `words` empty either way). -/
def normSegment (s : RawSegment) : Segment :=
  { text := s.text.getD "", start := s.start.getD 0,
    «end» := s.«end».getD 0, words := (s.words.getD []).map normWord }

/-- The segment dict synthesized when `segments` is absent or empty. -/
def synthRawSegment (text : String) : RawSegment :=
  { text := some text, start := some 0, «end» := some 0, words := some [] }

/-- `result.get('language', self.language or 'unknown')`. -/
def resolveLanguage (serviceLang hint : Option String) : String :=
  match serviceLang with
  | some l => l
  | none =>
    match hint with
    | some h => if h.isEmpty then "unknown" else h
    | none => "unknown"

/-- The response-normalizing tail of `AudioProcessor.transcribe`, run on a
truthy result dict: blank text returns `None`; absent or empty `segments` is
replaced by the single synthesized segment before the copying loop runs. -/
def normalizeResult (hint : Option String) (r : RawResult) : Option AudioTranscript :=
  let text := r.text.getD ""
  if pyBlank text then none
  else
    let rawSegs := r.segments.getD []
    let segs := if rawSegs.isEmpty then [synthRawSegment text] else rawSegs
    some { text := text, segments := segs.map normSegment,
           language := resolveLanguage r.language hint }

/-- The body of `AudioProcessor.transcribe` before its `except` clause: call the
client, test `if not result`, then normalize. -/
def apTranscribeBody (hint : Option String) (o : ClientCallOutcome) :
    Except PyExn (Option AudioTranscript) :=
  match whisperClientTranscribe o with
  | .error e => .error e
  | .ok clientResult =>
    if pyFalsyResult clientResult then .ok none
    else
      match clientResult with
      | none => .ok none
      | some r => .ok (normalizeResult hint r)

/-- `AudioProcessor.transcribe`: the whole body is wrapped in
`except Exception: return None`. -/
def transcribe (hint : Option String) (o : ClientCallOutcome) :
    Except PyExn (Option AudioTranscript) :=
  match apTranscribeBody hint o with
  | .ok v => .ok v
  | .error _ => .ok none

/-- The fields `AudioProcessor.__init__` stores. -/
structure AudioProcessorState where
  language : Option String
  hasFfmpeg : Bool
deriving DecidableEq

/-- `AudioProcessor.__init__`: store `language if language else None`, construct
the `WhisperClient` (whose `ConnectionError` is re-raised by the outer
`except`), then probe ffmpeg, with `CalledProcessError` and `FileNotFoundError`
both recorded as `has_ffmpeg = False`. -/
def audioProcessorInit (language : Option String) (probe : ProbeOutcome)
    (ffmpegCheck : FfmpegOutcome) : Except Unit AudioProcessorState :=
  match whisperClientInit probe with
  | .connectionError => .error ()
  | .ok _ =>
    .ok { language :=
            match language with
            | some s => if s.isEmpty then none else some s
            | none => none,
          hasFfmpeg :=
            match ffmpegCheck with
            | .success => true
            | .calledProcessError _ => false
            | .fileNotFound => false }

/-! ### Helper lemmas shared by the theorems below -/

/-- What one `AudioProcessor.transcribe` call returns, as a plain function of
the environment outcome: every non-success outcome of the client call yields
`none`, a successful call runs the truthiness test and the normalizer. -/
def transcribeSpec (hint : Option String) (o : ClientCallOutcome) : Option AudioTranscript :=
  match o with
  | .okJson r => if rawIsEmptyDict r then none else normalizeResult hint r
  | _ => none

theorem transcribe_run (hint : Option String) (o : ClientCallOutcome) :
    transcribe hint o = Except.ok (transcribeSpec hint o) := by
  cases o
  case okJson r =>
    by_cases h : rawIsEmptyDict r = true
    · simp [transcribe, apTranscribeBody, whisperClientTranscribe, clientRequestBody,
        transcribeSpec, pyFalsyResult, h]
    · simp [transcribe, apTranscribeBody, whisperClientTranscribe, clientRequestBody,
        transcribeSpec, pyFalsyResult, h]
  all_goals rfl

theorem normalizeResult_none_iff (hint : Option String) (r : RawResult) :
    normalizeResult hint r = none ↔ pyBlank (r.text.getD "") = true := by
  by_cases h : pyBlank (r.text.getD "") = true
  · simp [normalizeResult, h]
  · simp [normalizeResult, h]

theorem rawIsEmptyDict_text (r : RawResult) (h : rawIsEmptyDict r = true) :
    r.text = none := by
  unfold rawIsEmptyDict at h
  simp only [Bool.and_eq_true, Option.isNone_iff_eq_none] at h
  exact h.1.1.1

theorem normalizeResult_segments_ne_nil (hint : Option String) (r : RawResult)
    (t : AudioTranscript) (h : normalizeResult hint r = some t) : t.segments ≠ [] := by
  by_cases hb : pyBlank (r.text.getD "") = true
  · simp [normalizeResult, hb] at h
  · by_cases hs : (r.segments.getD []).isEmpty = true
    · simp [normalizeResult, hb, hs] at h
      rw [← h]
      simp
    · simp [normalizeResult, hb, hs] at h
      rw [← h]
      simp only [ne_eq, List.map_eq_nil_iff]
      intro hnil
      rw [hnil] at hs
      simp at hs

/-! ### The claims -/

/-- Claim C1, counterexample: a reachable probe answering HTTP 500 does not
make construction fail — `WhisperClient.__init__` returns a usable instance
(after the warning branch) and `AudioProcessor.__init__` succeeds, so the claim
that every non-200 status fails construction fatally is false. -/
theorem c1_counterexample :
    whisperClientInit (ProbeOutcome.response 500 true) ≠ InitResult.connectionError ∧
    audioProcessorInit none (ProbeOutcome.response 500 true) FfmpegOutcome.success =
      Except.ok ⟨none, true⟩ :=
  ⟨by decide, rfl⟩

/-- Claim C1, amended: construction performs the liveness probe
`GET {base}/health`; if the probe is unreachable (the request raises),
construction of the client — and hence of the `AudioProcessor` — fails fatally
with the service-unavailable `ConnectionError`; a reachable probe that returns
a non-200 status only logs a warning and construction still yields a usable
instance. -/
theorem c1_amended_health_probe :
    whisperClientInit ProbeOutcome.unreachable = InitResult.connectionError ∧
    audioProcessorInit none ProbeOutcome.unreachable FfmpegOutcome.success =
      Except.error () ∧
    (∀ status valid, status ≠ 200 →
      whisperClientInit (ProbeOutcome.response status valid) = InitResult.ok true) := by
  refine ⟨rfl, rfl, ?_⟩
  intro status valid h
  simp [whisperClientInit, h]

theorem c1_amended_health_probe_witness :
    whisperClientInit (ProbeOutcome.response 503 false) = InitResult.ok true :=
  c1_amended_health_probe.2.2 503 false (by decide)

/-- Claim C2, code behaviour at the failing input: when the primary decode tool
is missing entirely (`subprocess.run` raises `FileNotFoundError`),
`extract_audio` propagates the exception without attempting the pydub fallback,
even though the fallback would succeed — the `except` clause only catches
`CalledProcessError`. -/
theorem c2_tool_missing_no_fallback :
    extract_audio FfmpegOutcome.fileNotFound PydubOutcome.success =
      ExtractResult.raiseFileNotFound := rfl

/-- Claim C3: `AudioProcessor.transcribe` never raises — every environment
outcome produces a returned value, and a timeout, a transport error, a
malformed JSON response and any other unexpected error each return `none`. -/
theorem c3_transcribe_never_raises :
    (∀ hint o, ∃ v, transcribe hint o = Except.ok v) ∧
    (∀ hint, transcribe hint ClientCallOutcome.timeout = Except.ok none ∧
      transcribe hint ClientCallOutcome.requestException = Except.ok none ∧
      transcribe hint ClientCallOutcome.jsonDecodeError = Except.ok none ∧
      transcribe hint ClientCallOutcome.otherError = Except.ok none) := by
  constructor
  · intro hint o
    exact ⟨transcribeSpec hint o, transcribe_run hint o⟩
  · intro hint
    exact ⟨rfl, rfl, rfl, rfl⟩

/-- Claim C10: a probe that answers HTTP 200 with a body that is not valid JSON
makes construction fail with the very same `ConnectionError` as an unreachable
service, because the body is parsed inside the guarded region. -/
theorem c10_invalid_json_health_body :
    whisperClientInit (ProbeOutcome.response 200 false) = InitResult.connectionError ∧
    whisperClientInit (ProbeOutcome.response 200 false) =
      whisperClientInit ProbeOutcome.unreachable :=
  ⟨rfl, rfl⟩

/-- Claim C4: when the decode tool fails and its stderr carries the no-stream
diagnostic, `extract_audio` returns `None` — whatever the pydub outcome would
be, so the fallback is never attempted and nothing is raised. -/
theorem c4_no_stream_returns_none (stderr : String) (pydub : PydubOutcome)
    (h : strContains stderr noStreamMsg = true) :
    extract_audio (FfmpegOutcome.calledProcessError stderr) pydub =
      ExtractResult.noAudio := by
  simp [extract_audio, h]

theorem c4_no_stream_returns_none_witness :
    extract_audio (FfmpegOutcome.calledProcessError noStreamMsg) PydubOutcome.failure =
      ExtractResult.noAudio :=
  c4_no_stream_returns_none noStreamMsg PydubOutcome.failure (by decide)

/-- Claim C5: transcript language is resolved with precedence service-reported
value, then caller hint, then "unknown"; concretely, raw
`{text: "hi", language: "fr"}` with hint "en" resolves to "fr", no language key
with hint "en" resolves to "en", and neither resolves to "unknown". -/
theorem c5_language_precedence (l h : String) (hne : h.isEmpty = false) :
    resolveLanguage (some l) (some h) = l ∧
    resolveLanguage none (some h) = h ∧
    resolveLanguage none none = "unknown" ∧
    transcribe (some "en") (ClientCallOutcome.okJson ⟨some "hi", none, some "fr", false⟩) =
      Except.ok (some ⟨"hi", [⟨"hi", 0, 0, []⟩], "fr"⟩) ∧
    transcribe (some "en") (ClientCallOutcome.okJson ⟨some "hi", none, none, false⟩) =
      Except.ok (some ⟨"hi", [⟨"hi", 0, 0, []⟩], "en"⟩) ∧
    transcribe none (ClientCallOutcome.okJson ⟨some "hi", none, none, false⟩) =
      Except.ok (some ⟨"hi", [⟨"hi", 0, 0, []⟩], "unknown"⟩) := by
  refine ⟨rfl, ?_, rfl, rfl, rfl, rfl⟩
  simp [resolveLanguage, hne]

theorem c5_language_precedence_witness :
    resolveLanguage none (some "en") = "en" :=
  (c5_language_precedence "fr" "en" (by decide)).2.1

/-- Claim C6: a raw result with non-blank text and absent-or-empty segments
normalizes to a transcript with exactly one segment
`{text: <full text>, start: 0, end: 0, words: []}`. -/
theorem c6_synthesized_segment (hint : Option String) (r : RawResult)
    (htext : pyBlank (r.text.getD "") = false)
    (hsegs : (r.segments.getD []).isEmpty = true) :
    transcribe hint (ClientCallOutcome.okJson r) =
      Except.ok (some ⟨r.text.getD "", [⟨r.text.getD "", 0, 0, []⟩],
        resolveLanguage r.language hint⟩) := by
  have htn : r.text ≠ none := by
    intro hn
    rw [hn] at htext
    exact absurd htext (by decide)
  have hempty : rawIsEmptyDict r = false := by
    unfold rawIsEmptyDict
    cases hx : r.text with
    | none => exact absurd hx htn
    | some s => simp
  rw [transcribe_run]
  simp [transcribeSpec, hempty, normalizeResult, htext, hsegs, normSegment, synthRawSegment]

theorem c6_synthesized_segment_witness :
    transcribe none (ClientCallOutcome.okJson ⟨some "hello", none, none, false⟩) =
      Except.ok (some ⟨"hello", [⟨"hello", 0, 0, []⟩], "unknown"⟩) := by
  have h := c6_synthesized_segment none ⟨some "hello", none, none, false⟩ (by decide) rfl
  simpa [resolveLanguage] using h

/-- Claim C7: every raw segment's text/start/end are copied with defaults
""/0/0, and every raw word entry's word/start/end/probability are copied with
probability defaulting to 1 and timestamps to 0. -/
theorem c7_segment_word_copying (hint : Option String) (r : RawResult)
    (segs : List RawSegment) (hsegs : r.segments = some segs) (hne : segs ≠ [])
    (htext : pyBlank (r.text.getD "") = false) :
    transcribe hint (ClientCallOutcome.okJson r) =
      Except.ok (some ⟨r.text.getD "",
        segs.map (fun s => ⟨s.text.getD "", s.start.getD 0, s.«end».getD 0,
          (s.words.getD []).map (fun w =>
            ⟨w.word.getD "", w.start.getD 0, w.«end».getD 0, w.probability.getD 1⟩)⟩),
        resolveLanguage r.language hint⟩) := by
  have htn : r.text ≠ none := by
    intro hn
    rw [hn] at htext
    exact absurd htext (by decide)
  have hempty : rawIsEmptyDict r = false := by
    unfold rawIsEmptyDict
    cases hx : r.text with
    | none => exact absurd hx htn
    | some s => simp
  have hiso : segs.isEmpty = false := by
    cases segs with
    | nil => exact absurd rfl hne
    | cons a as => rfl
  rw [transcribe_run]
  simp [transcribeSpec, hempty, normalizeResult, htext, hsegs, hiso, normSegment, normWord]

theorem c7_segment_word_copying_witness :
    transcribe none (ClientCallOutcome.okJson
      ⟨some "hi there", some [⟨some "hi there", some 0, some 2,
        some [⟨some "hi", none, some 1, none⟩]⟩], none, false⟩) =
      Except.ok (some ⟨"hi there",
        [⟨"hi there", 0, 2, [⟨"hi", 0, 1, 1⟩]⟩], "unknown"⟩) := by
  have h := c7_segment_word_copying none
    ⟨some "hi there", some [⟨some "hi there", some 0, some 2,
      some [⟨some "hi", none, some 1, none⟩]⟩], none, false⟩
    [⟨some "hi there", some 0, some 2, some [⟨some "hi", none, some 1, none⟩]⟩]
    rfl (by decide) (by decide)
  simpa [resolveLanguage] using h

/-- Claim C8: on a structurally valid service response, `transcribe` returns
`none` exactly when the top-level text is empty or whitespace-only — so this is
the only post-request path turning a valid response into an absent transcript. -/
theorem c8_blank_text_iff_none (hint : Option String) (r : RawResult) :
    transcribe hint (ClientCallOutcome.okJson r) = Except.ok none ↔
      pyBlank (r.text.getD "") = true := by
  rw [transcribe_run]
  simp only [transcribeSpec, Except.ok.injEq]
  by_cases he : rawIsEmptyDict r = true
  · rw [if_pos he]
    constructor
    · intro _
      rw [rawIsEmptyDict_text r he]
      decide
    · intro _
      rfl
  · rw [if_neg he]
    exact normalizeResult_none_iff hint r

/-- Claim C9: every transcript `transcribe` returns satisfies the invariant
that non-empty text implies non-empty segments. -/
theorem c9_text_nonempty_segments_nonempty (hint : Option String)
    (o : ClientCallOutcome) (t : AudioTranscript)
    (h : transcribe hint o = Except.ok (some t)) (ht : t.text ≠ "") :
    t.segments ≠ [] := by
  rw [transcribe_run] at h
  simp only [Except.ok.injEq] at h
  cases o
  case okJson r =>
    simp only [transcribeSpec] at h
    by_cases he : rawIsEmptyDict r = true
    · rw [if_pos he] at h
      exact absurd h (by simp)
    · rw [if_neg he] at h
      exact normalizeResult_segments_ne_nil hint r t h
  all_goals simp [transcribeSpec] at h

theorem c9_text_nonempty_segments_nonempty_witness :
    (⟨"hey", [⟨"hey", 0, 0, []⟩], "unknown"⟩ : AudioTranscript).segments ≠ [] :=
  c9_text_nonempty_segments_nonempty none
    (ClientCallOutcome.okJson ⟨some "hey", none, none, false⟩)
    ⟨"hey", [⟨"hey", 0, 0, []⟩], "unknown"⟩ rfl (by decide)

end VideoAnalyzer
